import Mathlib

set_option linter.unusedVariables false

namespace S3Object

/-- Modelled from the spec: operation status values of the provisioning
framework's progress events (spec section 3, Outcome).  The enum comes from
the external cloudformation-cli library, which src/ only imports. -/
inductive OpStatus
  | IN_PROGRESS
  | SUCCESS
  | FAILED
  deriving DecidableEq, Repr

/-- Modelled from the spec: the fixed taxonomy of handler error kinds
(spec section 7).  The enum comes from the external cloudformation-cli
library, which src/ only imports. -/
inductive HandlerErrorCode
  | NotFound
  | InvalidRequest
  | Throttling
  | GeneralServiceException
  | InternalFailure
  deriving DecidableEq, Repr

/-- A botocore ClientError payload: the backend error code and message
(spec section 6: every backend call may fail with a code and a message). -/
structure AwsError where
  code : String
  message : String
  deriving DecidableEq, Repr

/-- Python exceptions that the handler code can raise or observe.  A raised
exception is an Except.error value threaded through the embedding. -/
inductive PyError
  | valueError (msg : String)
  | typeError (msg : String)
  | attributeError (msg : String)
  | unboundLocalError (var : String)
  | exception (msg : String)
  | clientError (e : AwsError)
  | internalFailure (msg : String)
  deriving DecidableEq, Repr

/-- String of a botocore ClientError, as interpolated by str(ce). -/
def clientErrorStr (e : AwsError) : String :=
  "An error occurred (" ++ e.code ++ "): " ++ e.message

/-- String of a Python exception, as interpolated by str(e) in the except
clauses of the handlers. -/
def pyMsg : PyError → String
  | PyError.valueError m => m
  | PyError.typeError m => m
  | PyError.attributeError m => m
  | PyError.unboundLocalError v =>
      "local variable " ++ v ++ " referenced before assignment"
  | PyError.exception m => m
  | PyError.clientError e => clientErrorStr e
  | PyError.internalFailure m => m

/-- Modelled from the spec: one tag of the resource model, a Key/Value pair
(spec section 3).  The Tag class lives in the generated models.py, which is
not under src/; its fields are optional strings. -/
structure Tag where
  Key : Option String := none
  Value : Option String := none
  deriving DecidableEq, Repr

/-- A tag dictionary in the backend wire format, as returned by
get_object_tagging in its TagSet (entries are read with dict.get). -/
structure WireTag where
  Key : Option String := none
  Value : Option String := none
  deriving DecidableEq, Repr

/-- Modelled from the spec: the resource model with its five fields
(spec section 3).  The ResourceModel class lives in the generated
models.py, which is not under src/; every field is optional. -/
structure ResourceModel where
  BucketName : Option String := none
  ObjectKey : Option String := none
  ObjectContents : Option String := none
  ObjectArn : Option String := none
  Tags : Option (List Tag) := none
  deriving DecidableEq, Repr

/-- The callback context dictionary, reduced to the value of its single
recognized key -status- (none when the key is absent).  Spec section 3. -/
abbrev CallbackContext := Option OpStatus

/-- Modelled from the spec: the handler request, carrying the desired
resource state and the stack-level tag maps (spec section 6).  A mapping is
kept as an association list in iteration order. -/
structure ResourceHandlerRequest where
  desiredResourceState : Option ResourceModel := none
  desiredResourceTags : Option (List (String × String)) := none
  previousResourceTags : Option (List (String × String)) := none
  deriving DecidableEq, Repr

/-- The progress event returned by every handler invocation (spec section 3,
Outcome).  The class comes from the external cloudformation-cli library. -/
structure PEvent where
  status : OpStatus
  resourceModel : Option ResourceModel := none
  resourceModels : Option (List ResourceModel) := none
  errorCode : Option HandlerErrorCode := none
  message : Option String := none
  callbackContext : Option CallbackContext := none
  callbackDelaySeconds : Option Nat := none
  deriving DecidableEq, Repr

/-- Response of put_object: boto returns a dictionary that may or may not
contain a VersionId entry. -/
structure PutObjectResponse where
  VersionId : Option String := none
  deriving DecidableEq, Repr

/-- Response of get_object, reduced to the decoded body text. -/
structure GetObjectResponse where
  body : String
  deriving DecidableEq, Repr

/-- One entry of a list_objects_v2 Contents array. -/
structure S3ObjectSummary where
  Key : String
  deriving DecidableEq, Repr

/-- Response of list_objects_v2: the Contents key may be absent. -/
structure ListObjectsResponse where
  contents : Option (List S3ObjectSummary) := none
  deriving DecidableEq, Repr

/-- The capability handle for the blob-storage backend (spec section 6):
each operation either returns its response or fails with a classified
backend error. -/
structure S3Client where
  putObject : String → String → String → Option String → Except AwsError PutObjectResponse
  getObject : String → String → Except AwsError GetObjectResponse
  getObjectTagging : String → String → Except AwsError (List WireTag)
  deleteObject : String → String → Except AwsError Unit
  listObjectsV2 : String → Except AwsError ListObjectsResponse

/-- Python truthiness of an optional string: None and the empty string are
falsy. -/
def strTruthy : Option String → Bool
  | none => false
  | some s => !s.isEmpty

/-- Python truthiness of an optional list: None and the empty list are
falsy. -/
def listTruthy {α : Type} : Option (List α) → Bool
  | none => false
  | some l => !l.isEmpty

/-- Python str() / f-string rendering of an optional string: None renders as
the text None. -/
def pyStr : Option String → String
  | none => "None"
  | some s => s

/-- The keyword dictionary assembled for put_object: Bucket, Key, Body, and
an optional serialized Tags entry. -/
structure S3Params where
  Bucket : String
  Key : String
  Body : String
  Tags : Option String := none
  deriving DecidableEq, Repr

namespace AwsCommunity

/-- CALLBACK_DELAY_SECONDS from awscommunity handlers.py. -/
def CALLBACK_DELAY_SECONDS : Nat := 5

/-- CALLBACK_STATUS_IN_PROGRESS from awscommunity handlers.py: the callback
context dictionary with status set to IN_PROGRESS. -/
def CALLBACK_STATUS_IN_PROGRESS : CallbackContext := some OpStatus.IN_PROGRESS

/-- Embeds awscommunity handlers.py _is_callback. -/
def _is_callback (callback_context : CallbackContext) : Bool :=
  match callback_context with
  | some OpStatus.IN_PROGRESS => true
  | _ => false

/-- Embeds awscommunity handlers.py _get_handler_error_code. -/
def _get_handler_error_code (api_error_code : String) : HandlerErrorCode :=
  if api_error_code = "NoSuchKey" then
    HandlerErrorCode.NotFound
  else if api_error_code ∈ [
      "InvalidParameter",
      "InvalidParameterCombination",
      "InvalidParameterValue",
      "InvalidTagKey.Malformed",
      "MissingAction",
      "MissingParameter",
      "UnknownParameter",
      "ValidationError"] then
    HandlerErrorCode.InvalidRequest
  else if api_error_code ∈ ["RequestLimitExceeded"] then
    HandlerErrorCode.Throttling
  else
    HandlerErrorCode.GeneralServiceException

/-- Embeds awscommunity handlers.py _progress_event_callback. -/
def _progress_event_callback (model : Option ResourceModel) : PEvent :=
  { status := OpStatus.IN_PROGRESS,
    resourceModel := model,
    callbackContext := some CALLBACK_STATUS_IN_PROGRESS,
    callbackDelaySeconds := some CALLBACK_DELAY_SECONDS }

/-- Embeds awscommunity handlers.py _progress_event_success.  The two
ValueError branches are raised exceptions, hence Except.error values. -/
def _progress_event_success (model : Option ResourceModel)
    (models : Option (List ResourceModel))
    (is_delete_handler : Bool) (is_list_handler : Bool) :
    Except PyError PEvent :=
  if !model.isSome && !listTruthy models
      && !is_delete_handler && !is_list_handler then
    Except.error (PyError.valueError
      "Model, or models, or is_delete_handler, or is_list_handler unset")
  else if is_delete_handler && is_list_handler then
    Except.error (PyError.valueError
      "Specify either is_delete_handler or is_list_handler, not both")
  else if is_delete_handler then
    Except.ok { status := OpStatus.SUCCESS }
  else if is_list_handler then
    Except.ok { status := OpStatus.SUCCESS, resourceModels := models }
  else
    Except.ok { status := OpStatus.SUCCESS, resourceModel := model }

/-- Embeds awscommunity handlers.py _progress_event_failed (the logging side
effect is dropped; ProgressEvent.failed prefixes the message). -/
def _progress_event_failed (handler_error_code : HandlerErrorCode)
    (error_message : String) : PEvent :=
  { status := OpStatus.FAILED,
    errorCode := some handler_error_code,
    message := some ("Error: " ++ error_message) }

/-- Embeds awscommunity handlers.py _get_session_client: the session is
already the optional capability; isinstance failure yields None. -/
def _get_session_client (session : Option S3Client) : Option S3Client :=
  session

/-- Embeds awscommunity handlers.py _get_tags_from_model_tags.  A None tag
Key or Value makes the string concatenation raise a TypeError. -/
def _get_tags_from_model_tags : List Tag → Except PyError (List String)
  | [] => Except.ok []
  | t :: rest =>
    match t.Key, t.Value with
    | some k, some v =>
      match _get_tags_from_model_tags rest with
      | Except.ok rs => Except.ok ((k ++ "=" ++ v) :: rs)
      | Except.error e => Except.error e
    | _, _ =>
      Except.error (PyError.typeError
        "unsupported operand type for concatenation with NoneType")

/-- Embeds awscommunity handlers.py _get_model_tags_from_tags. -/
def _get_model_tags_from_tags (tags : List WireTag) : List Tag :=
  tags.map (fun tag => { Key := tag.Key, Value := tag.Value })

/-- Embeds awscommunity handlers.py _get_tags_from_desired_resource_tags.
The accumulator tags is never initialized before the loop, so the function
raises UnboundLocalError on every input: on a non-empty mapping at the
first augmented assignment, on an empty mapping at the return. -/
def _get_tags_from_desired_resource_tags
    (desired_resource_tags : List (String × String)) :
    Except PyError (List String) :=
  Except.error (PyError.unboundLocalError "tags")

/-- Embeds awscommunity handlers.py _build_tag_list. -/
def _build_tag_list (model : Option ResourceModel)
    (request : ResourceHandlerRequest) : Except PyError (List String) :=
  let tags : List String := []
  let afterStack : Except PyError (List String) :=
    if listTruthy request.desiredResourceTags then
      match _get_tags_from_desired_resource_tags
          (request.desiredResourceTags.getD []) with
      | Except.ok drt => Except.ok (tags ++ drt)
      | Except.error e => Except.error e
    else
      Except.ok tags
  match afterStack with
  | Except.error e => Except.error e
  | Except.ok tags1 =>
    match model with
    | some m =>
      if listTruthy m.Tags then
        match _get_tags_from_model_tags (m.Tags.getD []) with
        | Except.ok mts => Except.ok (tags1 ++ mts)
        | Except.error e => Except.error e
      else
        Except.ok tags1
    | none => Except.ok tags1

/-- Embeds awscommunity handlers.py _upload_s3_helper.  put_object_param is
only assigned when model, BucketName, ObjectKey and ObjectContents are all
truthy; otherwise its later uses raise UnboundLocalError. -/
def _upload_s3_helper (model : Option ResourceModel)
    (request : ResourceHandlerRequest) : Except PyError S3Params :=
  let base : Option S3Params :=
    match model with
    | some m =>
      if strTruthy m.BucketName && strTruthy m.ObjectKey
          && strTruthy m.ObjectContents then
        some { Bucket := m.BucketName.getD "",
               Key := m.ObjectKey.getD "",
               Body := m.ObjectContents.getD "" }
      else
        none
    | none => none
  let tagsWanted : Bool :=
    match model with
    | some m => listTruthy m.Tags
    | none => false
  if tagsWanted then
    match _build_tag_list model request with
    | Except.error e => Except.error e
    | Except.ok tags =>
      let tag_entry := String.intercalate "&" tags
      match base with
      | none => Except.error (PyError.unboundLocalError "put_object_param")
      | some p => Except.ok { p with Tags := some tag_entry }
  else
    match base with
    | none => Except.error (PyError.unboundLocalError "put_object_param")
    | some p => Except.ok p

/-- Embeds awscommunity handlers.py _put_object.  boto never returns None
from put_object, so the returned comparison with None is always true. -/
def _put_object (s3_params : S3Params) (client : Option S3Client) :
    Except PyError Bool :=
  match client with
  | none =>
    Except.error (PyError.attributeError
      "NoneType object has no attribute put_object")
  | some c =>
    match c.putObject s3_params.Bucket s3_params.Key s3_params.Body
        s3_params.Tags with
    | Except.error e => Except.error (PyError.clientError e)
    | Except.ok _ => Except.ok true

/-- Result of the Read handler: the desired resource state after the
in-place mutations the handler performs on it, plus the returned event (or
the exception that escaped the handler). -/
structure ReadOut where
  finalDesired : Option ResourceModel
  result : Except PyError PEvent
  deriving Repr

/-- Embeds awscommunity handlers.py read_handler.  A non-ClientError
exception inside the try block escapes the handler: the second except
clause names botocore.exceptions.GeneralServiceException, an attribute that
does not exist, so matching it raises an AttributeError that propagates
before the final except clause is consulted. -/
def read_handler (session : Option S3Client)
    (request : ResourceHandlerRequest)
    (callback_context : CallbackContext) : ReadOut :=
  let model := request.desiredResourceState
  let model_object_key : String :=
    match model with
    | some m => if strTruthy m.ObjectKey then m.ObjectKey.getD "" else ""
    | none => ""
  let model_bucket_name : String :=
    match model with
    | some m => if strTruthy m.BucketName then m.BucketName.getD "" else ""
    | none => ""
  match _get_session_client session with
  | none =>
    { finalDesired := model,
      result := Except.error (PyError.attributeError
        "NoneType object has no attribute get_object") }
  | some client =>
    match client.getObject model_bucket_name model_object_key with
    | Except.error e =>
      { finalDesired := model,
        result := Except.ok (_progress_event_failed
          (_get_handler_error_code e.code) (clientErrorStr e)) }
    | Except.ok response =>
      let model1 : Option ResourceModel :=
        match model with
        | some m => some { m with ObjectContents := some response.body }
        | none => none
      match model1 with
      | none =>
        { finalDesired := none,
          result := Except.error (PyError.attributeError
            "NoneType object has no attribute ObjectArn") }
      | some m1 =>
        let arn2 := "arn:aws:s3:::" ++ model_bucket_name ++ "/" ++ model_object_key
        let m2 := { m1 with ObjectArn := some arn2 }
        match client.getObjectTagging model_bucket_name model_object_key with
        | Except.error e =>
          { finalDesired := some m2,
            result := Except.ok (_progress_event_failed
              (_get_handler_error_code e.code) (clientErrorStr e)) }
        | Except.ok tag_set =>
          let m3 := { m2 with Tags := some (_get_model_tags_from_tags tag_set) }
          let res : Except PyError PEvent :=
            match _progress_event_success (some m3) none false false with
            | Except.ok ev => Except.ok ev
            | Except.error e => Except.error e
          { finalDesired := some m3, result := res }

/-- Embeds awscommunity handlers.py _callback_helper.  The model argument
aliases request.desiredResourceState, so after the in-place mutation done
by read_handler its value is the finalDesired field of the read result.
When the read reports an error code other than NotFound, no branch returns
and the Python function falls off the end, returning None. -/
def _callback_helper (session : Option S3Client)
    (request : ResourceHandlerRequest)
    (callback_context : CallbackContext)
    (model : Option ResourceModel)
    (is_delete_handler : Bool) : Except PyError (Option PEvent) :=
  match (read_handler session request callback_context).result with
  | Except.error e => Except.error e
  | Except.ok rh =>
    if rh.status = OpStatus.SUCCESS then
      match _progress_event_success
          (read_handler session request callback_context).finalDesired
          none false false with
      | Except.ok ev => Except.ok (some ev)
      | Except.error e => Except.error e
    else if rh.errorCode.isSome then
      if rh.errorCode = some HandlerErrorCode.NotFound
          ∧ is_delete_handler = true then
        match _progress_event_success none none true false with
        | Except.ok ev => Except.ok (some ev)
        | Except.error e => Except.error e
      else if rh.errorCode = some HandlerErrorCode.NotFound then
        Except.ok (some (_progress_event_failed HandlerErrorCode.NotFound
          (pyStr rh.message)))
      else
        Except.ok none
    else
      Except.ok (some (_progress_event_callback
        (read_handler session request callback_context).finalDesired))

/-- The try/except wrapper shared by the awscommunity Create and Update
handlers: ClientError maps through the error classifier, every other
exception maps to InternalFailure. -/
def runTry (body : Except PyError PEvent) : PEvent :=
  match body with
  | Except.ok ev => ev
  | Except.error (PyError.clientError e) =>
    _progress_event_failed (_get_handler_error_code e.code) (clientErrorStr e)
  | Except.error pe =>
    _progress_event_failed HandlerErrorCode.InternalFailure (pyMsg pe)

/-- Embeds awscommunity handlers.py create_handler. -/
def create_handler (session : Option S3Client)
    (request : ResourceHandlerRequest)
    (callback_context : CallbackContext) : Except PyError (Option PEvent) :=
  let model := request.desiredResourceState
  if _is_callback callback_context then
    _callback_helper session request callback_context model false
  else
    let body : Except PyError PEvent :=
      let client := _get_session_client session
      match _upload_s3_helper model request with
      | Except.error e => Except.error e
      | Except.ok s3_params =>
        match _put_object s3_params client with
        | Except.error e => Except.error e
        | Except.ok is_uploaded =>
          if is_uploaded = false then
            Except.error (PyError.exception "File Failed to upload")
          else
            match model with
            | none =>
              Except.error (PyError.attributeError
                "NoneType object has no attribute ObjectArn")
            | some m =>
              let arn1 := "arn:aws:s3:::" ++ pyStr m.BucketName ++ "/" ++ pyStr m.ObjectKey
              let m1 := { m with ObjectArn := some arn1 }
              Except.ok (_progress_event_callback (some m1))
    Except.ok (some (runTry body))

/-- Embeds awscommunity handlers.py update_handler (same body shape as the
Create handler). -/
def update_handler (session : Option S3Client)
    (request : ResourceHandlerRequest)
    (callback_context : CallbackContext) : Except PyError (Option PEvent) :=
  let model := request.desiredResourceState
  if _is_callback callback_context then
    _callback_helper session request callback_context model false
  else
    let body : Except PyError PEvent :=
      let client := _get_session_client session
      match _upload_s3_helper model request with
      | Except.error e => Except.error e
      | Except.ok s3_params =>
        match _put_object s3_params client with
        | Except.error e => Except.error e
        | Except.ok is_uploaded =>
          if is_uploaded = false then
            Except.error (PyError.exception "File Failed to upload")
          else
            match model with
            | none =>
              Except.error (PyError.attributeError
                "NoneType object has no attribute ObjectArn")
            | some m =>
              let arn1 := "arn:aws:s3:::" ++ pyStr m.BucketName ++ "/" ++ pyStr m.ObjectKey
              let m1 := { m with ObjectArn := some arn1 }
              Except.ok (_progress_event_callback (some m1))
    Except.ok (some (runTry body))

/-- Embeds awscommunity handlers.py delete_handler.  Inside the try block an
Except.ok none stands for falling through to the success return after the
try statement; an Except.ok (some ev) is an early return from the try. -/
def delete_handler (session : Option S3Client)
    (request : ResourceHandlerRequest)
    (callback_context : CallbackContext) : Except PyError (Option PEvent) :=
  let model := request.desiredResourceState
  if _is_callback callback_context then
    _callback_helper session request callback_context model true
  else
    let model_bucket_name : Option String :=
      match model with
      | some m => if strTruthy m.BucketName then some (m.BucketName.getD "") else none
      | none => none
    let model_object_key : Option String :=
      match model with
      | some m => if strTruthy m.ObjectKey then some (m.ObjectKey.getD "") else none
      | none => none
    let client := _get_session_client session
    let deleteStep : Except PyError (Option PEvent) :=
      match model with
      | none => Except.ok none
      | some _ =>
        match client with
        | none =>
          Except.error (PyError.attributeError
            "NoneType object has no attribute delete_object")
        | some c =>
          match model_bucket_name with
          | none => Except.error (PyError.unboundLocalError "model_bucket_name")
          | some b =>
            match model_object_key with
            | none => Except.error (PyError.unboundLocalError "model_object_key")
            | some k =>
              match c.deleteObject b k with
              | Except.error e => Except.error (PyError.clientError e)
              | Except.ok _ => Except.ok none
    let body : Except PyError (Option PEvent) :=
      let ro := read_handler session request callback_context
      match ro.result with
      | Except.error e => Except.error e
      | Except.ok rh =>
        if rh.errorCode.isSome then
          if rh.errorCode = some HandlerErrorCode.NotFound then
            Except.ok (some (_progress_event_failed HandlerErrorCode.NotFound
              (pyStr rh.message)))
          else
            deleteStep
        else
          deleteStep
    match body with
    | Except.ok (some ev) => Except.ok (some ev)
    | Except.ok none =>
      match _progress_event_success none none true false with
      | Except.ok ev => Except.ok (some ev)
      | Except.error e => Except.error e
    | Except.error (PyError.clientError e) =>
      Except.ok (some (_progress_event_failed
        (_get_handler_error_code e.code) (clientErrorStr e)))
    | Except.error pe =>
      Except.ok (some (_progress_event_failed HandlerErrorCode.InternalFailure
        (pyMsg pe)))

/-- Embeds awscommunity handlers.py list_handler. -/
def list_handler (session : Option S3Client)
    (request : ResourceHandlerRequest)
    (callback_context : CallbackContext) : Except PyError (Option PEvent) :=
  let model := request.desiredResourceState
  let body : Except PyError (List ResourceModel) :=
    let model_bucket_name : Option String :=
      match model with
      | some m => if strTruthy m.BucketName then some (m.BucketName.getD "") else none
      | none => none
    let client := _get_session_client session
    match client with
    | none =>
      Except.error (PyError.attributeError
        "NoneType object has no attribute list_objects_v2")
    | some c =>
      match model_bucket_name with
      | none => Except.error (PyError.unboundLocalError "model_bucket_name")
      | some b =>
        match c.listObjectsV2 b with
        | Except.error e => Except.error (PyError.clientError e)
        | Except.ok response =>
          match response.contents with
          | some contents =>
            Except.ok (contents.map (fun content =>
              { ObjectArn := some ("arn:aws:s3:::" ++ b ++ "/" ++ content.Key),
                ObjectKey := some content.Key,
                BucketName := some b,
                ObjectContents := none,
                Tags := none }))
          | none => Except.ok []
  match body with
  | Except.error (PyError.clientError e) =>
    Except.ok (some (_progress_event_failed
      (_get_handler_error_code e.code) (clientErrorStr e)))
  | Except.error pe =>
    Except.ok (some (_progress_event_failed HandlerErrorCode.InternalFailure
      (pyMsg pe)))
  | Except.ok models =>
    match _progress_event_success none (some models) false true with
    | Except.ok ev => Except.ok (some ev)
    | Except.error e => Except.error e

end AwsCommunity

namespace AwsS3

/-- CALLBACK_DELAY_SECONDS from aws_s3_object handlers.py. -/
def CALLBACK_DELAY_SECONDS : Nat := 5

/-- CALLBACK_STATUS_IN_PROGRESS from aws_s3_object handlers.py. -/
def CALLBACK_STATUS_IN_PROGRESS : CallbackContext := some OpStatus.IN_PROGRESS

/-- Embeds aws_s3_object handlers.py _is_callback. -/
def _is_callback (callback_context : CallbackContext) : Bool :=
  match callback_context with
  | some OpStatus.IN_PROGRESS => true
  | _ => false

/-- Embeds aws_s3_object handlers.py _progress_event_callback. -/
def _progress_event_callback (model : Option ResourceModel) : PEvent :=
  { status := OpStatus.IN_PROGRESS,
    resourceModel := model,
    callbackContext := some CALLBACK_STATUS_IN_PROGRESS,
    callbackDelaySeconds := some CALLBACK_DELAY_SECONDS }

/-- Embeds aws_s3_object handlers.py _progress_event_success (identical body
to the awscommunity variant). -/
def _progress_event_success (model : Option ResourceModel)
    (models : Option (List ResourceModel))
    (is_delete_handler : Bool) (is_list_handler : Bool) :
    Except PyError PEvent :=
  if !model.isSome && !listTruthy models
      && !is_delete_handler && !is_list_handler then
    Except.error (PyError.valueError
      "Model, or models, or is_delete_handler, or is_list_handler unset")
  else if is_delete_handler && is_list_handler then
    Except.error (PyError.valueError
      "Specify either is_delete_handler or is_list_handler, not both")
  else if is_delete_handler then
    Except.ok { status := OpStatus.SUCCESS }
  else if is_list_handler then
    Except.ok { status := OpStatus.SUCCESS, resourceModels := models }
  else
    Except.ok { status := OpStatus.SUCCESS, resourceModel := model }

/-- Embeds aws_s3_object handlers.py _progress_event_failed. -/
def _progress_event_failed (handler_error_code : HandlerErrorCode)
    (error_message : String) : PEvent :=
  { status := OpStatus.FAILED,
    errorCode := some handler_error_code,
    message := some ("Error: " ++ error_message) }

/-- Embeds aws_s3_object handlers.py _get_session_client. -/
def _get_session_client (session : Option S3Client) : Option S3Client :=
  session

/-- Embeds aws_s3_object handlers.py _upload_s3_helper: when the guard
fails the function falls off the end and returns None. -/
def _upload_s3_helper (model : Option ResourceModel)
    (request : ResourceHandlerRequest) : Option S3Params :=
  match model with
  | some m =>
    if strTruthy m.BucketName && strTruthy m.ObjectKey
        && strTruthy m.ObjectContents then
      some { Bucket := m.BucketName.getD "",
             Key := m.ObjectKey.getD "",
             Body := m.ObjectContents.getD "" }
    else
      none
  | none => none

/-- Embeds aws_s3_object handlers.py _put_object.  The client attribute is
resolved before the arguments are evaluated, so a None client raises an
AttributeError before a None s3_params raises a TypeError when
subscripted. -/
def _put_object (s3_params : Option S3Params) (client : Option S3Client) :
    Except PyError Bool :=
  match client with
  | none =>
    Except.error (PyError.attributeError
      "NoneType object has no attribute put_object")
  | some c =>
    match s3_params with
    | none =>
      Except.error (PyError.typeError "NoneType object is not subscriptable")
    | some p =>
      match c.putObject p.Bucket p.Key p.Body none with
      | Except.error e => Except.error (PyError.clientError e)
      | Except.ok response =>
        if response.VersionId.isSome then Except.ok true else Except.ok false

/-- Embeds aws_s3_object handlers.py read_handler: a stub that returns
SUCCESS with the desired resource state and touches no backend state. -/
def read_handler (session : Option S3Client)
    (request : ResourceHandlerRequest)
    (callback_context : CallbackContext) : PEvent :=
  { status := OpStatus.SUCCESS,
    resourceModel := request.desiredResourceState }

/-- Embeds aws_s3_object handlers.py list_handler: a stub that returns
SUCCESS with an empty model list. -/
def list_handler (session : Option S3Client)
    (request : ResourceHandlerRequest)
    (callback_context : CallbackContext) : PEvent :=
  { status := OpStatus.SUCCESS, resourceModels := some [] }

/-- Embeds aws_s3_object handlers.py delete_handler: a stub that returns
IN_PROGRESS with no model. -/
def delete_handler (session : Option S3Client)
    (request : ResourceHandlerRequest)
    (callback_context : CallbackContext) : PEvent :=
  { status := OpStatus.IN_PROGRESS, resourceModel := none }

/-- Embeds aws_s3_object handlers.py _callback_helper (identical body to the
awscommunity variant, but running against the stub Read handler, which
never fails). -/
def _callback_helper (session : Option S3Client)
    (request : ResourceHandlerRequest)
    (callback_context : CallbackContext)
    (model : Option ResourceModel)
    (is_delete_handler : Bool) : Except PyError (Option PEvent) :=
  let rh := read_handler session request callback_context
  if rh.status = OpStatus.SUCCESS then
    match _progress_event_success model none false false with
    | Except.ok ev => Except.ok (some ev)
    | Except.error e => Except.error e
  else if rh.errorCode.isSome then
    if rh.errorCode = some HandlerErrorCode.NotFound
        ∧ is_delete_handler = true then
      match _progress_event_success none none true false with
      | Except.ok ev => Except.ok (some ev)
      | Except.error e => Except.error e
    else if rh.errorCode = some HandlerErrorCode.NotFound then
      Except.ok (some (_progress_event_failed HandlerErrorCode.NotFound
        (pyStr rh.message)))
    else
      Except.ok none
  else
    Except.ok (some (_progress_event_callback model))

/-- Embeds aws_s3_object handlers.py create_handler.  Only TypeError is
caught (re-raised as exceptions.InternalFailure); every other exception
propagates out of the handler. -/
def create_handler (session : Option S3Client)
    (request : ResourceHandlerRequest)
    (callback_context : CallbackContext) : Except PyError (Option PEvent) :=
  let model := request.desiredResourceState
  if _is_callback callback_context then
    _callback_helper session request callback_context model false
  else
    let body : Except PyError PEvent :=
      let client := _get_session_client session
      let s3_params := _upload_s3_helper model request
      match _put_object s3_params client with
      | Except.error e => Except.error e
      | Except.ok is_uploaded =>
        if is_uploaded = false then
          Except.error (PyError.exception "File Failed to upload")
        else
          match model with
          | none =>
            Except.error (PyError.attributeError
              "NoneType object has no attribute ObjectArn")
          | some m =>
            let arn1 := "arn:aws:s3:::" ++ pyStr m.BucketName ++ "/" ++ pyStr m.ObjectKey
            let m1 := { m with ObjectArn := some arn1 }
            Except.ok (_progress_event_callback (some m1))
    match body with
    | Except.ok ev => Except.ok (some ev)
    | Except.error (PyError.typeError m) =>
      Except.error (PyError.internalFailure ("was not expecting type " ++ m))
    | Except.error pe => Except.error pe

/-- Embeds aws_s3_object handlers.py update_handler.  The fresh/resumed
test is negated relative to every sibling handler: a fresh invocation (no
in-progress marker) is routed into _callback_helper, and a resumed one
performs the write and then returns the Read stub's event.  The write path
mutates request.desiredResourceState in place before the Read stub reads
it back. -/
def update_handler (session : Option S3Client)
    (request : ResourceHandlerRequest)
    (callback_context : CallbackContext) : Except PyError (Option PEvent) :=
  let model := request.desiredResourceState
  if (_is_callback callback_context) = false then
    _callback_helper session request callback_context model false
  else
    let body : Except PyError (Option ResourceModel) :=
      let client := _get_session_client session
      let s3_params := _upload_s3_helper model request
      match _put_object s3_params client with
      | Except.error e => Except.error e
      | Except.ok is_uploaded =>
        if is_uploaded = false then
          Except.error (PyError.exception "File Failed to upload")
        else
          match model with
          | none =>
            Except.error (PyError.attributeError
              "NoneType object has no attribute ObjectArn")
          | some m =>
            let arn1 := "arn:aws:s3:::" ++ pyStr m.BucketName ++ "/" ++ pyStr m.ObjectKey
            Except.ok (some { m with ObjectArn := some arn1 })
    match body with
    | Except.ok model1 =>
      Except.ok (some (read_handler session
        { request with desiredResourceState := model1 } callback_context))
    | Except.error (PyError.typeError m) =>
      Except.error (PyError.internalFailure ("was not expecting type " ++ m))
    | Except.error pe => Except.error pe

end AwsS3

/-- A concrete resource model used by the concrete runs below. -/
def mA : ResourceModel :=
  { BucketName := some "bkt", ObjectKey := some "key.txt",
    ObjectContents := some "hello", ObjectArn := none, Tags := none }

/-- A concrete request carrying mA and no stack-level tags. -/
def reqA : ResourceHandlerRequest := { desiredResourceState := some mA }

/-- A fresh callback context (no status key). -/
def ctxFresh : CallbackContext := none

/-- A resumed callback context (status key set to IN_PROGRESS). -/
def ctxResumed : CallbackContext := some OpStatus.IN_PROGRESS

/-- A backend where the object is present: all reads succeed. -/
def clientPresent : S3Client :=
  { putObject := fun _ _ _ _ => Except.ok { VersionId := some "v1" },
    getObject := fun _ _ => Except.ok { body := "hello" },
    getObjectTagging := fun _ _ => Except.ok [],
    deleteObject := fun _ _ => Except.ok (),
    listObjectsV2 := fun _ => Except.ok { contents := none } }

/-- A backend where the object is missing: reads fail with NoSuchKey. -/
def clientAbsent : S3Client :=
  { putObject := fun _ _ _ _ => Except.ok { VersionId := some "v1" },
    getObject := fun _ _ =>
      Except.error { code := "NoSuchKey", message := "missing" },
    getObjectTagging := fun _ _ =>
      Except.error { code := "NoSuchKey", message := "missing" },
    deleteObject := fun _ _ => Except.ok (),
    listObjectsV2 := fun _ => Except.ok { contents := none } }

/-- A backend whose reads fail with a throttling error code. -/
def clientThrottled : S3Client :=
  { putObject := fun _ _ _ _ => Except.ok { VersionId := some "v1" },
    getObject := fun _ _ =>
      Except.error { code := "RequestLimitExceeded", message := "slow down" },
    getObjectTagging := fun _ _ =>
      Except.error { code := "RequestLimitExceeded", message := "slow down" },
    deleteObject := fun _ _ => Except.ok (),
    listObjectsV2 := fun _ => Except.ok { contents := none } }

/-- A backend whose put acknowledgment lacks a version id and whose writes
therefore look unconfirmed; its reads also fail, so a SUCCESS outcome can
only come from a path that skipped the backend. -/
def clientNoVersion : S3Client :=
  { putObject := fun _ _ _ _ => Except.ok { VersionId := none },
    getObject := fun _ _ =>
      Except.error { code := "NoSuchKey", message := "missing" },
    getObjectTagging := fun _ _ =>
      Except.error { code := "NoSuchKey", message := "missing" },
    deleteObject := fun _ _ => Except.ok (),
    listObjectsV2 := fun _ => Except.ok { contents := none } }

/-- Status of a handler result, when the handler returned an event. -/
def resultStatus : Except PyError (Option PEvent) → Option OpStatus
  | Except.ok (some ev) => some ev.status
  | _ => none

/-- Error code of a handler result, when the handler returned an event. -/
def resultErrorCode : Except PyError (Option PEvent) → Option HandlerErrorCode
  | Except.ok (some ev) => ev.errorCode
  | _ => none

/-- Model attached to a handler result, when the handler returned an
event carrying one. -/
def resultModel : Except PyError (Option PEvent) → Option ResourceModel
  | Except.ok (some ev) => ev.resourceModel
  | _ => none

/-- The derived identifier formula fixed by spec section 6. -/
def arnOf (b k : String) : String := "arn:aws:s3:::" ++ b ++ "/" ++ k

/-- A model whose ObjectArn agrees with the derived formula for its own
BucketName and ObjectKey, whenever both are present. -/
def arnOk (m : ResourceModel) : Prop :=
  ∀ b k, m.BucketName = some b → m.ObjectKey = some k →
    m.ObjectArn = some (arnOf b k)

/-- Every model carried by an event satisfies arnOk. -/
def eventArnOk (ev : PEvent) : Prop :=
  (∀ m, ev.resourceModel = some m → arnOk m)
  ∧ (∀ ms, ev.resourceModels = some ms → ∀ m ∈ ms, arnOk m)

theorem strTruthy_some_of_ne (b : String) (h : b.isEmpty = false) :
    strTruthy (some b) = true := by
  simp [strTruthy, h]

theorem truthyDefault_eq (b : String) :
    (if strTruthy (some b) then (some b : Option String).getD "" else "") = b := by
  by_cases h : b.isEmpty
  · have hb : b = "" := (String.isEmpty_iff b).mp h
    simp [strTruthy, h, hb]
  · simp [strTruthy, h]

/-- C1 counterexample: on a RESUMED create whose Read sub-step fails with
NotFound, the handler returns FAILED (carrying NotFound), not IN_PROGRESS
as the claim states; and when the Read sub-step fails with another
classified kind (Throttling here), the handler returns Python None rather
than a FAILED event. -/
theorem C1_counterexample :
    resultStatus (AwsCommunity.create_handler (some clientAbsent) reqA ctxResumed)
        = some OpStatus.FAILED
    ∧ resultErrorCode (AwsCommunity.create_handler (some clientAbsent) reqA ctxResumed)
        = some HandlerErrorCode.NotFound
    ∧ AwsCommunity.create_handler (some clientThrottled) reqA ctxResumed
        = Except.ok none := by
  refine ⟨rfl, rfl, rfl⟩

/-- C2 counterexample: on a RESUMED delete whose Read sub-step still finds
the object, the handler returns SUCCESS carrying the model, not
IN_PROGRESS as the claim states. -/
theorem C2_counterexample :
    resultStatus (AwsCommunity.delete_handler (some clientPresent) reqA ctxResumed)
        = some OpStatus.SUCCESS
    ∧ (resultModel (AwsCommunity.delete_handler (some clientPresent) reqA ctxResumed)).isSome
        = true := by
  refine ⟨rfl, rfl⟩

/-- C3 counterexample: on a FRESH create whose put-object acknowledgment
lacks a version id, the aws_s3_object handler does not return a FAILED
outcome: it raises an uncaught Exception (only TypeError is caught), so no
progress event is returned at all. -/
theorem C3_counterexample :
    AwsS3.create_handler (some clientNoVersion) reqA ctxFresh
      = Except.error (PyError.exception "File Failed to upload") := by
  rfl

/-- C4: evaluation at the failing input.  A FRESH update in the
aws_s3_object variant (callback context without the in-progress marker)
returns SUCCESS with the unmodified model and performs no backend write at
all: with no session present a write attempt would necessarily raise, yet
the handler succeeds, because its fresh/resumed test is negated.  The
awscommunity update handler at the same fresh input performs the write and
returns the claimed IN_PROGRESS event with the in-progress context and the
5-second delay. -/
theorem C4_inverted_update :
    AwsS3.update_handler none reqA ctxFresh
        = Except.ok (some { status := OpStatus.SUCCESS, resourceModel := some mA })
    ∧ AwsCommunity.update_handler (some clientPresent) reqA ctxFresh
        = Except.ok (some (AwsCommunity._progress_event_callback
            (some { mA with ObjectArn := some "arn:aws:s3:::bkt/key.txt" })))
    ∧ (AwsCommunity._progress_event_callback
        (some { mA with ObjectArn := some "arn:aws:s3:::bkt/key.txt" })).status
        = OpStatus.IN_PROGRESS
    ∧ (AwsCommunity._progress_event_callback
        (some { mA with ObjectArn := some "arn:aws:s3:::bkt/key.txt" })).callbackDelaySeconds
        = some 5
    ∧ (AwsCommunity._progress_event_callback
        (some { mA with ObjectArn := some "arn:aws:s3:::bkt/key.txt" })).callbackContext
        = some AwsCommunity.CALLBACK_STATUS_IN_PROGRESS := by
  refine ⟨rfl, rfl, rfl, rfl, rfl⟩

/-- C6: evaluation at the failing input.  With stack tags env=prod present
and model tags (team, infra), _build_tag_list raises UnboundLocalError
(the accumulator of _get_tags_from_desired_resource_tags is never
initialized) instead of producing the concatenated tag list; the
model-tag conversion on its own would produce the pair team=infra. -/
theorem C6_tag_accumulator_fault :
    AwsCommunity._build_tag_list
        (some { mA with Tags := some [{ Key := some "team", Value := some "infra" }] })
        { reqA with desiredResourceTags := some [("env", "prod")] }
      = Except.error (PyError.unboundLocalError "tags")
    ∧ AwsCommunity._get_tags_from_model_tags
        [{ Key := some "team", Value := some "infra" }]
      = Except.ok ["team=infra"] := by
  refine ⟨rfl, rfl⟩

/-- C5: the error classifier is a total function from backend error-code
strings to the fixed taxonomy: NoSuchKey maps to NotFound,
RequestLimitExceeded maps to Throttling, each of the eight
parameter/validation-shaped codes maps to InvalidRequest, and every other
code string maps to GeneralServiceException. -/
theorem C5_classifier_total :
    AwsCommunity._get_handler_error_code "NoSuchKey" = HandlerErrorCode.NotFound
    ∧ AwsCommunity._get_handler_error_code "RequestLimitExceeded"
        = HandlerErrorCode.Throttling
    ∧ (∀ c, c ∈ [
        "InvalidParameter",
        "InvalidParameterCombination",
        "InvalidParameterValue",
        "InvalidTagKey.Malformed",
        "MissingAction",
        "MissingParameter",
        "UnknownParameter",
        "ValidationError"] →
      AwsCommunity._get_handler_error_code c = HandlerErrorCode.InvalidRequest)
    ∧ (∀ c, c ≠ "NoSuchKey" →
      c ∉ [
        "InvalidParameter",
        "InvalidParameterCombination",
        "InvalidParameterValue",
        "InvalidTagKey.Malformed",
        "MissingAction",
        "MissingParameter",
        "UnknownParameter",
        "ValidationError"] →
      c ≠ "RequestLimitExceeded" →
      AwsCommunity._get_handler_error_code c
        = HandlerErrorCode.GeneralServiceException) := by
  refine ⟨rfl, rfl, ?_, ?_⟩
  · intro c hc
    fin_cases hc <;> rfl
  · intro c h1 h2 h3
    have h3m : c ∉ ["RequestLimitExceeded"] := by
      simpa using h3
    unfold AwsCommunity._get_handler_error_code
    rw [if_neg h1, if_neg h2, if_neg h3m]

/-- C5 witness: an unclassified code string maps to
GeneralServiceException. -/
theorem C5_witness :
    AwsCommunity._get_handler_error_code "TotallyUnknownCode"
      = HandlerErrorCode.GeneralServiceException :=
  C5_classifier_total.2.2.2 "TotallyUnknownCode"
    (by decide) (by decide) (by decide)

/-- C7: the success outcome constructor raises a ValueError exactly when
called with no model, no model list (None or empty), and neither flag set,
or when both the delete-flag and the list-flag are set; in every other
case it returns a SUCCESS event whose payload shape is selected by the
arguments (no payload for delete, the model list for list, the model
otherwise).  The aws_s3_object copy of the constructor is the same
function. -/
theorem C7_success_constructor (model : Option ResourceModel)
    (models : Option (List ResourceModel)) (d l : Bool) :
    ((∃ e, AwsCommunity._progress_event_success model models d l = Except.error e)
      ↔ ((model = none ∧ listTruthy models = false ∧ d = false ∧ l = false)
          ∨ (d = true ∧ l = true)))
    ∧ (d = true → l = false →
        AwsCommunity._progress_event_success model models d l
          = Except.ok { status := OpStatus.SUCCESS })
    ∧ (l = true → d = false →
        AwsCommunity._progress_event_success model models d l
          = Except.ok { status := OpStatus.SUCCESS, resourceModels := models })
    ∧ (d = false → l = false → (model ≠ none ∨ listTruthy models = true) →
        AwsCommunity._progress_event_success model models d l
          = Except.ok { status := OpStatus.SUCCESS, resourceModel := model })
    ∧ AwsS3._progress_event_success model models d l
        = AwsCommunity._progress_event_success model models d l := by
  refine ⟨?_, ?_, ?_, ?_, rfl⟩ <;>
    cases d <;> cases l <;> cases model <;>
      by_cases hm : listTruthy models <;>
        simp [AwsCommunity._progress_event_success, hm]

/-- C7 witness: called with no model, no models, and neither flag, the
constructor raises. -/
theorem C7_witness :
    ∃ e, AwsCommunity._progress_event_success none none false false
      = Except.error e :=
  (C7_success_constructor none none false false).1.mpr
    (Or.inl ⟨rfl, rfl, rfl, rfl⟩)

/-- C8: a list invocation against a bucket whose listing response contains
no objects (no Contents key, or an empty one) returns SUCCESS with an
empty model list. -/
theorem C8_list_empty_bucket (client : S3Client)
    (request : ResourceHandlerRequest) (m : ResourceModel)
    (ctx : CallbackContext) (resp : ListObjectsResponse)
    (hm : request.desiredResourceState = some m)
    (hb : strTruthy m.BucketName = true)
    (hresp : client.listObjectsV2 (m.BucketName.getD "") = Except.ok resp)
    (hc : resp.contents = none ∨ resp.contents = some []) :
    AwsCommunity.list_handler (some client) request ctx
      = Except.ok (some { status := OpStatus.SUCCESS, resourceModels := some ([] : List ResourceModel) }) := by
  unfold AwsCommunity.list_handler
  rcases hc with hc | hc <;>
    simp [hm, hb, AwsCommunity._get_session_client, hresp, hc,
      AwsCommunity._progress_event_success, listTruthy]

/-- C8 witness: a concrete empty-bucket listing returns SUCCESS with an
empty model list. -/
theorem C8_witness :
    AwsCommunity.list_handler (some clientPresent) reqA ctxFresh
      = Except.ok (some { status := OpStatus.SUCCESS, resourceModels := some ([] : List ResourceModel) }) :=
  C8_list_empty_bucket clientPresent reqA mA ctxFresh { contents := none }
    rfl rfl rfl (Or.inl rfl)

theorem truthyIf_eq (b : String) : (if strTruthy (some b) then b else "") = b := by
  by_cases h : b.isEmpty
  · have hb : b = "" := (String.isEmpty_iff b).mp h
    simp [strTruthy, h, hb]
  · simp [strTruthy, h]

theorem eventArnOk_of_none (ev : PEvent) (h1 : ev.resourceModel = none)
    (h2 : ev.resourceModels = none) : eventArnOk ev := by
  constructor
  · intro m hm; rw [h1] at hm; simp at hm
  · intro ms hms; rw [h2] at hms; simp at hms

theorem runTry_error_no_model (e : PyError) :
    (AwsCommunity.runTry (Except.error e)).resourceModel = none
    ∧ (AwsCommunity.runTry (Except.error e)).resourceModels = none := by
  cases e <;> exact ⟨rfl, rfl⟩

/-- Shape of any Read handler outcome: either an exception escaped, or a
failed event with no model was returned, or the success event was returned
carrying exactly the mutated desired state, whose ObjectArn satisfies the
derived-identifier formula. -/
theorem read_handler_shape (session : Option S3Client)
    (request : ResourceHandlerRequest) (ctx : CallbackContext) :
    (∃ e, (AwsCommunity.read_handler session request ctx).result = Except.error e)
    ∨ (∃ c msg, (AwsCommunity.read_handler session request ctx).result
        = Except.ok (AwsCommunity._progress_event_failed c msg))
    ∨ (∃ m3, (AwsCommunity.read_handler session request ctx).finalDesired = some m3
        ∧ (AwsCommunity.read_handler session request ctx).result
            = Except.ok { status := OpStatus.SUCCESS, resourceModel := some m3 }
        ∧ arnOk m3) := by
  unfold AwsCommunity.read_handler
  cases session with
  | none => exact Or.inl ⟨_, rfl⟩
  | some client =>
    simp only [AwsCommunity._get_session_client]
    cases hreq : request.desiredResourceState with
    | none =>
      rcases hget : client.getObject "" "" with e | resp
      · exact Or.inr (Or.inl ⟨AwsCommunity._get_handler_error_code e.code,
          clientErrorStr e, by simp [hget]⟩)
      · exact Or.inl ⟨PyError.attributeError "NoneType object has no attribute ObjectArn",
          by simp [hget]⟩
    | some m =>
      rcases hget : client.getObject
          (if strTruthy m.BucketName then m.BucketName.getD "" else "")
          (if strTruthy m.ObjectKey then m.ObjectKey.getD "" else "") with e | resp
      · exact Or.inr (Or.inl ⟨AwsCommunity._get_handler_error_code e.code,
          clientErrorStr e, by simp [hget]⟩)
      · rcases htag : client.getObjectTagging
            (if strTruthy m.BucketName then m.BucketName.getD "" else "")
            (if strTruthy m.ObjectKey then m.ObjectKey.getD "" else "") with e | ts
        · exact Or.inr (Or.inl ⟨AwsCommunity._get_handler_error_code e.code,
            clientErrorStr e, by simp [hget, htag]⟩)
        · refine Or.inr (Or.inr ⟨{ m with ObjectContents := some resp.body, ObjectArn := some ("arn:aws:s3:::" ++ (if strTruthy m.BucketName then m.BucketName.getD "" else "") ++ "/" ++ (if strTruthy m.ObjectKey then m.ObjectKey.getD "" else "")), Tags := some (AwsCommunity._get_model_tags_from_tags ts) }, by simp [hget, htag], by
            simp [hget, htag, AwsCommunity._progress_event_success], ?_⟩)
          intro b k hb hk
          simp only at hb hk
          simp [hb, hk, arnOf, truthyIf_eq]

/-- Any event actually returned by the callback helper carries only models
whose ObjectArn satisfies the derived-identifier formula. -/
theorem callback_helper_arnOk (session : Option S3Client)
    (request : ResourceHandlerRequest) (ctx : CallbackContext)
    (model0 : Option ResourceModel) (d : Bool) (ev : PEvent)
    (h : AwsCommunity._callback_helper session request ctx model0 d
        = Except.ok (some ev)) : eventArnOk ev := by
  unfold AwsCommunity._callback_helper at h
  rcases read_handler_shape session request ctx with ⟨e, he⟩ | ⟨c, msg, he⟩ |
      ⟨m3, hfd, he, harn⟩
  · rw [he] at h
    simp at h
  · rw [he] at h
    by_cases hc : (c = HandlerErrorCode.NotFound ∧ d = true)
    · simp [AwsCommunity._progress_event_failed, hc,
        AwsCommunity._progress_event_success] at h
      exact eventArnOk_of_none ev (by rw [← h]) (by rw [← h])
    · by_cases hc2 : c = HandlerErrorCode.NotFound
      · have hd : d = false := by
          cases d
          · rfl
          · exact absurd ⟨hc2, rfl⟩ hc
        simp [AwsCommunity._progress_event_failed, hc, hc2, hd] at h
        exact eventArnOk_of_none ev (by rw [← h]) (by rw [← h])
      · simp [AwsCommunity._progress_event_failed, hc, hc2] at h
  · rw [he, hfd] at h
    simp [AwsCommunity._progress_event_success] at h
    refine ⟨?_, ?_⟩
    · intro m hm
      rw [← h] at hm
      simp at hm
      rw [← hm]
      exact harn
    · intro ms hms
      rw [← h] at hms
      simp at hms

/-- C1 (amended): on a RESUMED create or update whose Read sub-step fails
with NotFound, the handler returns FAILED carrying NotFound; when the Read
sub-step fails with any other classified kind, the handler returns no
outcome at all (the callback helper falls off the end and returns Python
None). -/
theorem C1_resumed_read_failure (session : Option S3Client)
    (request : ResourceHandlerRequest) (ctx : CallbackContext) (rh : PEvent)
    (hcb : AwsCommunity._is_callback ctx = true)
    (hread : (AwsCommunity.read_handler session request ctx).result
        = Except.ok rh)
    (hst : rh.status = OpStatus.FAILED) :
    (rh.errorCode = some HandlerErrorCode.NotFound →
      AwsCommunity.create_handler session request ctx
        = Except.ok (some (AwsCommunity._progress_event_failed
            HandlerErrorCode.NotFound (pyStr rh.message)))
      ∧ AwsCommunity.update_handler session request ctx
        = Except.ok (some (AwsCommunity._progress_event_failed
            HandlerErrorCode.NotFound (pyStr rh.message))))
    ∧ (∀ c, rh.errorCode = some c → c ≠ HandlerErrorCode.NotFound →
      AwsCommunity.create_handler session request ctx = Except.ok none
      ∧ AwsCommunity.update_handler session request ctx = Except.ok none) := by
  constructor
  · intro hnf
    constructor
    · unfold AwsCommunity.create_handler
      simp [hcb, AwsCommunity._callback_helper, hread, hst, hnf]
    · unfold AwsCommunity.update_handler
      simp [hcb, AwsCommunity._callback_helper, hread, hst, hnf]
  · intro c hc hne
    constructor
    · unfold AwsCommunity.create_handler
      simp [hcb, AwsCommunity._callback_helper, hread, hst, hc, hne]
    · unfold AwsCommunity.update_handler
      simp [hcb, AwsCommunity._callback_helper, hread, hst, hc, hne]

/-- C1 witness: a concrete resumed update whose Read fails with a
Throttling error returns Python None (no progress event). -/
theorem C1_witness :
    AwsCommunity.update_handler (some clientThrottled) reqA ctxResumed
      = Except.ok none :=
  ((C1_resumed_read_failure (some clientThrottled) reqA ctxResumed
      (AwsCommunity._progress_event_failed HandlerErrorCode.Throttling
        (clientErrorStr { code := "RequestLimitExceeded", message := "slow down" }))
      rfl rfl rfl).2 HandlerErrorCode.Throttling rfl (by decide)).2

/-- C2 (amended): on a RESUMED delete whose Read sub-step fails with
NotFound, the handler returns SUCCESS with no model; on a RESUMED delete
whose Read sub-step succeeds (the object is still present), the handler
returns SUCCESS carrying the mutated model, not IN_PROGRESS. -/
theorem C2_resumed_delete (session : Option S3Client)
    (request : ResourceHandlerRequest) (ctx : CallbackContext) (rh : PEvent)
    (hcb : AwsCommunity._is_callback ctx = true)
    (hread : (AwsCommunity.read_handler session request ctx).result
        = Except.ok rh) :
    (rh.status = OpStatus.FAILED →
      rh.errorCode = some HandlerErrorCode.NotFound →
      AwsCommunity.delete_handler session request ctx
        = Except.ok (some { status := OpStatus.SUCCESS }))
    ∧ (∀ mfin, rh.status = OpStatus.SUCCESS →
      (AwsCommunity.read_handler session request ctx).finalDesired = some mfin →
      AwsCommunity.delete_handler session request ctx
        = Except.ok (some { status := OpStatus.SUCCESS, resourceModel := some mfin })) := by
  constructor
  · intro hst hnf
    unfold AwsCommunity.delete_handler
    simp [hcb, AwsCommunity._callback_helper, hread, hst, hnf,
      AwsCommunity._progress_event_success]
  · intro mfin hst hfd
    unfold AwsCommunity.delete_handler
    simp [hcb, AwsCommunity._callback_helper, hread, hst, hfd,
      AwsCommunity._progress_event_success]

/-- C2 witness: a concrete resumed delete whose Read reports NotFound
returns SUCCESS with no model attached. -/
theorem C2_witness :
    AwsCommunity.delete_handler (some clientAbsent) reqA ctxResumed
      = Except.ok (some { status := OpStatus.SUCCESS }) :=
  ((C2_resumed_delete (some clientAbsent) reqA ctxResumed
      (AwsCommunity._progress_event_failed HandlerErrorCode.NotFound
        (clientErrorStr { code := "NoSuchKey", message := "missing" }))
      rfl rfl).1 rfl rfl)

/-- C3 (amended): on a FRESH create whose put-object acknowledgment lacks a
version id, neither variant returns SUCCESS; the aws_s3_object variant
raises an uncaught Exception instead of returning a FAILED event (only
TypeError is caught), while the awscommunity variant never inspects the
version id and returns IN_PROGRESS. -/
theorem C3_missing_version_id (client : S3Client)
    (request : ResourceHandlerRequest) (m : ResourceModel)
    (ctx : CallbackContext) (resp : PutObjectResponse)
    (hcb : AwsS3._is_callback ctx = false)
    (hm : request.desiredResourceState = some m)
    (hb : strTruthy m.BucketName = true)
    (hk : strTruthy m.ObjectKey = true)
    (hoc : strTruthy m.ObjectContents = true)
    (htags : m.Tags = none)
    (hput : client.putObject (m.BucketName.getD "") (m.ObjectKey.getD "")
        (m.ObjectContents.getD "") none = Except.ok resp)
    (hv : resp.VersionId = none) :
    AwsS3.create_handler (some client) request ctx
        = Except.error (PyError.exception "File Failed to upload")
    ∧ resultStatus (AwsCommunity.create_handler (some client) request ctx)
        = some OpStatus.IN_PROGRESS := by
  have hcb2 : AwsCommunity._is_callback ctx = false := hcb
  constructor
  · unfold AwsS3.create_handler
    simp [hcb, AwsS3._get_session_client, AwsS3._upload_s3_helper, hm, hb, hk,
      hoc, AwsS3._put_object, hput, hv]
  · unfold AwsCommunity.create_handler
    simp [hcb2, AwsCommunity._get_session_client, AwsCommunity._upload_s3_helper,
      hm, hb, hk, hoc, htags, listTruthy, AwsCommunity._put_object, hput,
      AwsCommunity.runTry, resultStatus, AwsCommunity._progress_event_callback]

/-- C3 witness: the concrete no-version-id backend produces the uncaught
exception in the aws_s3_object variant and IN_PROGRESS in the awscommunity
variant. -/
theorem C3_witness :
    AwsS3.create_handler (some clientNoVersion) reqA ctxFresh
        = Except.error (PyError.exception "File Failed to upload")
    ∧ resultStatus (AwsCommunity.create_handler (some clientNoVersion) reqA ctxFresh)
        = some OpStatus.IN_PROGRESS :=
  C3_missing_version_id clientNoVersion reqA mA ctxFresh { VersionId := none }
    rfl rfl rfl rfl rfl rfl rfl rfl

/-- C9: every model carried by an outcome of the awscommunity create,
update, read, or list handlers has an ObjectArn equal to the string
arn:aws:s3:::BucketName/ObjectKey formed from that model's own BucketName
and ObjectKey. -/
theorem C9_arn_invariant (session : Option S3Client)
    (request : ResourceHandlerRequest) (ctx : CallbackContext) :
    (∀ ev, AwsCommunity.create_handler session request ctx
        = Except.ok (some ev) → eventArnOk ev)
    ∧ (∀ ev, AwsCommunity.update_handler session request ctx
        = Except.ok (some ev) → eventArnOk ev)
    ∧ (∀ rh, (AwsCommunity.read_handler session request ctx).result
        = Except.ok rh → eventArnOk rh)
    ∧ (∀ ev, AwsCommunity.list_handler session request ctx
        = Except.ok (some ev) → eventArnOk ev) := by
  have hread : ∀ rh, (AwsCommunity.read_handler session request ctx).result
      = Except.ok rh → eventArnOk rh := by
    intro rh h
    rcases read_handler_shape session request ctx with ⟨e, he⟩ | ⟨c, msg, he⟩ |
        ⟨m3, hfd, he, harn⟩
    · rw [he] at h; simp at h
    · rw [he] at h
      simp only [Except.ok.injEq] at h
      rw [← h]
      exact eventArnOk_of_none _ rfl rfl
    · rw [he] at h
      simp only [Except.ok.injEq] at h
      rw [← h]
      refine ⟨?_, ?_⟩
      · intro m hm
        simp only [Option.some.injEq] at hm
        rw [← hm]
        exact harn
      · intro ms hms
        simp at hms
  have hcreate : ∀ ev, AwsCommunity.create_handler session request ctx
      = Except.ok (some ev) → eventArnOk ev := by
    intro ev h
    unfold AwsCommunity.create_handler at h
    by_cases hcb : AwsCommunity._is_callback ctx = true
    · rw [if_pos hcb] at h
      exact callback_helper_arnOk _ _ _ _ _ _ h
    · rw [if_neg hcb] at h
      simp only [AwsCommunity._get_session_client, Except.ok.injEq,
        Option.some.injEq] at h
      rcases hup : AwsCommunity._upload_s3_helper request.desiredResourceState
          request with e | p
      · rw [hup] at h
        dsimp only at h
        rw [← h]
        exact eventArnOk_of_none _ (runTry_error_no_model e).1
          (runTry_error_no_model e).2
      · rw [hup] at h
        dsimp only at h
        rcases hput : AwsCommunity._put_object p session with e2 | b
        · rw [hput] at h
          dsimp only at h
          rw [← h]
          exact eventArnOk_of_none _ (runTry_error_no_model e2).1
            (runTry_error_no_model e2).2
        · rw [hput] at h
          dsimp only at h
          cases b
          · rw [← h]
            exact eventArnOk_of_none _ (runTry_error_no_model _).1
              (runTry_error_no_model _).2
          · rcases hreq : request.desiredResourceState with _ | m
            · rw [hreq] at h
              dsimp only at h
              rw [← h]
              exact eventArnOk_of_none _ (runTry_error_no_model _).1
                (runTry_error_no_model _).2
            · rw [hreq] at h
              dsimp only at h
              rw [← h]
              refine ⟨?_, ?_⟩
              · intro mm hmm
                simp [AwsCommunity.runTry,
                  AwsCommunity._progress_event_callback] at hmm
                rw [← hmm]
                intro b0 k0 hb0 hk0
                simp only at hb0 hk0
                simp [hb0, hk0, pyStr, arnOf]
              · intro ms hms
                simp [AwsCommunity.runTry,
                  AwsCommunity._progress_event_callback] at hms
  have hupdate : ∀ ev, AwsCommunity.update_handler session request ctx
      = Except.ok (some ev) → eventArnOk ev := by
    intro ev h
    exact hcreate ev h
  have hlist : ∀ ev, AwsCommunity.list_handler session request ctx
      = Except.ok (some ev) → eventArnOk ev := by
    intro ev h
    unfold AwsCommunity.list_handler at h
    cases session with
    | none =>
      simp only [AwsCommunity._get_session_client, Except.ok.injEq,
        Option.some.injEq] at h
      rw [← h]
      exact eventArnOk_of_none _ rfl rfl
    | some client =>
      rcases hreq : request.desiredResourceState with _ | m
      · simp only [AwsCommunity._get_session_client, hreq, Except.ok.injEq,
          Option.some.injEq] at h
        rw [← h]
        exact eventArnOk_of_none _ rfl rfl
      · by_cases hb : strTruthy m.BucketName = true
        · rcases hlo : client.listObjectsV2 (m.BucketName.getD "") with e | resp
          · simp only [AwsCommunity._get_session_client, hreq, hb, reduceIte,
              hlo, Except.ok.injEq, Option.some.injEq] at h
            rw [← h]
            exact eventArnOk_of_none _ rfl rfl
          · rcases hc : resp.contents with _ | cs
            · simp [AwsCommunity._get_session_client, hreq, hb,
                hlo, hc, AwsCommunity._progress_event_success, listTruthy] at h
              rw [← h]
              refine ⟨?_, ?_⟩
              · intro mm hmm
                simp at hmm
              · intro ms hms
                simp at hms
                subst hms
                intro mm hmm
                simp at hmm
            · simp [AwsCommunity._get_session_client, hreq, hb,
                hlo, hc, AwsCommunity._progress_event_success, listTruthy] at h
              rw [← h]
              refine ⟨?_, ?_⟩
              · intro mm hmm
                simp at hmm
              · intro ms hms
                simp only [Option.some.injEq] at hms
                rw [← hms]
                intro mm hmm
                simp only [List.mem_map] at hmm
                rcases hmm with ⟨content, hcont, hf⟩
                rw [← hf]
                intro b0 k0 hb0 hk0
                simp only [Option.some.injEq] at hb0 hk0
                simp [← hb0, ← hk0, arnOf]
        · simp [AwsCommunity._get_session_client, hreq, hb] at h
          rw [← h]
          exact eventArnOk_of_none _ rfl rfl
  exact ⟨hcreate, hupdate, hread, hlist⟩

/-- C9 witness: the success event of a concrete read satisfies the ARN
invariant. -/
theorem C9_witness : eventArnOk
    { status := OpStatus.SUCCESS, resourceModel := some { BucketName := some "bkt", ObjectKey := some "key.txt", ObjectContents := some "hello", ObjectArn := some "arn:aws:s3:::bkt/key.txt", Tags := some [] } } :=
  (C9_arn_invariant (some clientPresent) reqA ctxFresh).2.2.1 _ rfl

/-- C10: the Read handler mutates the request's desired state in place: on
a successful read the SUCCESS event's model is exactly the desired state
after mutation, with ObjectContents, ObjectArn and Tags overwritten from
backend values while BucketName and ObjectKey are left unchanged. -/
theorem C10_read_inplace_mutation (client : S3Client)
    (request : ResourceHandlerRequest) (m : ResourceModel)
    (ctx : CallbackContext) (b k bodyText : String) (ts : List WireTag)
    (hm : request.desiredResourceState = some m)
    (hb : m.BucketName = some b) (hbne : b.isEmpty = false)
    (hk : m.ObjectKey = some k) (hkne : k.isEmpty = false)
    (hget : client.getObject b k = Except.ok { body := bodyText })
    (htag : client.getObjectTagging b k = Except.ok ts) :
    (AwsCommunity.read_handler (some client) request ctx).finalDesired
      = some { m with ObjectContents := some bodyText, ObjectArn := some (arnOf b k), Tags := some (AwsCommunity._get_model_tags_from_tags ts) }
    ∧ (AwsCommunity.read_handler (some client) request ctx).result
      = Except.ok { status := OpStatus.SUCCESS, resourceModel := some { m with ObjectContents := some bodyText, ObjectArn := some (arnOf b k), Tags := some (AwsCommunity._get_model_tags_from_tags ts) } } := by
  have hb2 : (if strTruthy m.BucketName then m.BucketName.getD "" else "") = b := by
    rw [hb]; exact truthyDefault_eq b
  have hk2 : (if strTruthy m.ObjectKey then m.ObjectKey.getD "" else "") = k := by
    rw [hk]; exact truthyDefault_eq k
  unfold AwsCommunity.read_handler
  simp [AwsCommunity._get_session_client, hm, hb2, hk2, hget, htag,
    AwsCommunity._progress_event_success, arnOf]

/-- C10 witness: a concrete successful read returns the mutated desired
state as the success model. -/
theorem C10_witness :
    (AwsCommunity.read_handler (some clientPresent) reqA ctxFresh).finalDesired
      = some { mA with ObjectContents := some "hello", ObjectArn := some (arnOf "bkt" "key.txt"), Tags := some (AwsCommunity._get_model_tags_from_tags []) }
    ∧ (AwsCommunity.read_handler (some clientPresent) reqA ctxFresh).result
      = Except.ok { status := OpStatus.SUCCESS, resourceModel := some { mA with ObjectContents := some "hello", ObjectArn := some (arnOf "bkt" "key.txt"), Tags := some (AwsCommunity._get_model_tags_from_tags []) } } :=
  C10_read_inplace_mutation clientPresent reqA mA ctxFresh "bkt" "key.txt"
    "hello" [] rfl rfl rfl rfl rfl rfl rfl

end S3Object
